import Mathlib

/-!
Verification of the voice-agent web client (Next.js page + token route)
against its natural-language specification.

The embedding below translates the two source files that the claims touch:
  - src/app/api/token/route.ts : the POST /api/token handler
  - the page component file (VoiceChatRoom / Home): transcription stream
    handler, chat transcript state, mount/unmount listener registration,
    the disconnect control and the join flow.

JavaScript truthiness on optional strings is modelled by jsFalsy; timestamps
(JS Date values) are modelled as natural numbers; the JWT signing step
(at.toJwt) is vendor crypto, so the minted token is modelled structurally as
the AccessToken record (key, secret, identity, ttl, grants) that determines
the signed string.
-/

namespace VoiceAgent

/-- Parsed JSON body of a POST /api/token request. Destructuring
`const { room, username } = await request.json()` yields `undefined` for a
missing field, modelled as `none`. -/
structure TokenBody where
  room : Option String
  username : Option String
deriving DecidableEq, Repr

/-- Server environment: `process.env.LIVEKIT_API_KEY` and
`process.env.LIVEKIT_API_SECRET`, each possibly unset. -/
structure Env where
  LIVEKIT_API_KEY : Option String
  LIVEKIT_API_SECRET : Option String
deriving DecidableEq, Repr

/-- JavaScript falsiness of an optional string: `!x` is true exactly when
the value is absent (undefined) or the empty string. -/
def jsFalsy : Option String → Bool
  | none => true
  | some s => s == ""

/-- The grant added by `at.addGrant({room, roomJoin: true, canPublish: true,
canSubscribe: true})`. -/
structure VideoGrant where
  room : String
  roomJoin : Bool
  canPublish : Bool
  canSubscribe : Bool
deriving DecidableEq, Repr

/-- Structural model of the vendor AccessToken: the constructor arguments
`new AccessToken(apiKey, apiSecret, {identity, ttl})` plus the grants added
afterwards. The signed JWT string is a pure function of this record. -/
structure AccessToken where
  apiKey : String
  apiSecret : String
  identity : String
  ttl : String
  grants : List VideoGrant
deriving DecidableEq, Repr

/-- Model of `at.addGrant(g)`. -/
def addGrant (tok : AccessToken) (g : VideoGrant) : AccessToken :=
  { tok with grants := tok.grants ++ [g] }

/-- A response produced by the route: either `NextResponse.json({token})`
(HTTP 200) or `NextResponse.json({error}, {status})`. -/
inductive ApiResponse where
  | json (token : AccessToken)
  | jsonError (error : String) (status : Nat)
deriving DecidableEq, Repr

/-- HTTP status of a response; `NextResponse.json` defaults to 200. -/
def apiStatus : ApiResponse → Nat
  | .json _ => 200
  | .jsonError _ s => s

/-- The POST handler of src/app/api/token/route.ts. The `body` argument is
`none` when `await request.json()` throws (malformed JSON), which the
surrounding try/catch turns into the generic 500. -/
def POST (body : Option TokenBody) (env : Env) : ApiResponse :=
  match body with
  | none => .jsonError "Failed to generate token" 500
  | some b =>
    if jsFalsy b.room || jsFalsy b.username then
      .jsonError "Room and username are required" 400
    else if jsFalsy env.LIVEKIT_API_KEY || jsFalsy env.LIVEKIT_API_SECRET then
      .jsonError "LiveKit credentials not configured" 500
    else
      let tok : AccessToken :=
        { apiKey := env.LIVEKIT_API_KEY.getD ""
          apiSecret := env.LIVEKIT_API_SECRET.getD ""
          identity := b.username.getD ""
          ttl := "10m"
          grants := [] }
      let tok := addGrant tok
        { room := b.room.getD ""
          roomJoin := true
          canPublish := true
          canSubscribe := true }
      .json tok

/-- C1: for every POST request with a JSON body, a falsy room or username
yields the 400 error body; with both present but a credential env var
absent, the 500 credentials error body; with all four present, a JSON
object carrying the minted token. -/
theorem token_route_validation (b : TokenBody) (env : Env) :
    ((jsFalsy b.room || jsFalsy b.username) = true →
        POST (some b) env = .jsonError "Room and username are required" 400)
    ∧ ((jsFalsy b.room || jsFalsy b.username) = false →
        (jsFalsy env.LIVEKIT_API_KEY || jsFalsy env.LIVEKIT_API_SECRET) = true →
        POST (some b) env = .jsonError "LiveKit credentials not configured" 500)
    ∧ ((jsFalsy b.room || jsFalsy b.username) = false →
        (jsFalsy env.LIVEKIT_API_KEY || jsFalsy env.LIVEKIT_API_SECRET) = false →
        ∃ tok, POST (some b) env = .json tok) := by
  refine ⟨fun h1 => by simp [POST, h1], fun h1 h2 => by simp [POST, h1, h2],
    fun h1 h2 => by simp [POST, h1, h2]⟩

/-- Witness for token_route_validation at concrete inputs covering the
three branches. -/
theorem token_route_validation_witness :
    POST (some ⟨none, some "u"⟩) ⟨none, none⟩
        = .jsonError "Room and username are required" 400
    ∧ POST (some ⟨some "r", some "u"⟩) ⟨none, none⟩
        = .jsonError "LiveKit credentials not configured" 500
    ∧ ∃ tok, POST (some ⟨some "r", some "u"⟩) ⟨some "k", some "s"⟩ = .json tok :=
  ⟨(token_route_validation ⟨none, some "u"⟩ ⟨none, none⟩).1 (by decide),
   (token_route_validation ⟨some "r", some "u"⟩ ⟨none, none⟩).2.1 (by decide) (by decide),
   (token_route_validation ⟨some "r", some "u"⟩ ⟨some "k", some "s"⟩).2.2
     (by decide) (by decide)⟩

/-- C5: every token minted by the route carries identity equal to the
requested username, ttl of ten minutes, and exactly one grant: join,
publish and subscribe rights on the requested room. -/
theorem token_grant_contents (b : TokenBody) (env : Env) (tok : AccessToken)
    (h : POST (some b) env = .json tok) :
    ∃ roomS userS, b.room = some roomS ∧ b.username = some userS
      ∧ tok.identity = userS ∧ tok.ttl = "10m"
      ∧ tok.grants = [{ room := roomS, roomJoin := true, canPublish := true,
                        canSubscribe := true }] := by
  revert h
  simp only [POST]
  split
  · intro h; exact absurd h (by simp)
  · split
    · intro h; exact absurd h (by simp)
    · intro h
      rename_i h1 h2
      simp only [ApiResponse.json.injEq] at h
      obtain ⟨roomS, hroom, hroomne⟩ :
          ∃ s, b.room = some s ∧ s ≠ "" := by
        cases hb : b.room with
        | none => simp [jsFalsy, hb] at h1
        | some s =>
          refine ⟨s, rfl, ?_⟩
          intro hs
          simp [jsFalsy, hb, hs] at h1
      obtain ⟨userS, huser, huserne⟩ :
          ∃ s, b.username = some s ∧ s ≠ "" := by
        cases hb : b.username with
        | none => simp [jsFalsy, hb] at h1
        | some s =>
          refine ⟨s, rfl, ?_⟩
          intro hs
          simp [jsFalsy, hb, hs] at h1
      refine ⟨roomS, userS, hroom, huser, ?_, ?_, ?_⟩ <;>
        simp [← h, addGrant, hroom, huser]

/-- Witness for token_grant_contents: the token minted for room r and user
u has the stated identity, ttl and grant. -/
theorem token_grant_contents_witness :
    ∃ roomS userS, (some "r" : Option String) = some roomS
      ∧ (some "u" : Option String) = some userS
      ∧ (addGrant
          { apiKey := "k", apiSecret := "s", identity := "u", ttl := "10m",
            grants := [] }
          { room := "r", roomJoin := true, canPublish := true,
            canSubscribe := true }).identity = userS
      ∧ (addGrant
          { apiKey := "k", apiSecret := "s", identity := "u", ttl := "10m",
            grants := [] }
          { room := "r", roomJoin := true, canPublish := true,
            canSubscribe := true }).ttl = "10m"
      ∧ (addGrant
          { apiKey := "k", apiSecret := "s", identity := "u", ttl := "10m",
            grants := [] }
          { room := "r", roomJoin := true, canPublish := true,
            canSubscribe := true }).grants
        = [{ room := roomS, roomJoin := true, canPublish := true,
             canSubscribe := true }] :=
  token_grant_contents ⟨some "r", some "u"⟩ ⟨some "k", some "s"⟩ _ rfl

/-- C8: input validation precedes the credential check. A falsy room or
username (absent or the empty string) yields 400 for every environment,
including one with no credentials, and the credential 500 branch is
reachable only when both room and username are truthy (present and
non-empty). -/
theorem token_route_validation_order (b : TokenBody) (env : Env) :
    ((jsFalsy b.room || jsFalsy b.username) = true →
        POST (some b) env = .jsonError "Room and username are required" 400)
    ∧ jsFalsy (some "") = true
    ∧ (POST (some b) env = .jsonError "LiveKit credentials not configured" 500 →
        jsFalsy b.room = false ∧ jsFalsy b.username = false) := by
  refine ⟨fun h1 => by simp [POST, h1], rfl, fun h => ?_⟩
  by_cases h1 : (jsFalsy b.room || jsFalsy b.username) = true
  · simp [POST, h1] at h
  · simp only [Bool.or_eq_true, not_or, Bool.not_eq_true] at h1
    exact ⟨h1.1, h1.2⟩

/-- Witness for token_route_validation_order: an empty-string room with
credentials configured still yields 400, and a request reaching the 500
credential branch has truthy room and username. -/
theorem token_route_validation_order_witness :
    POST (some ⟨some "", some "u"⟩) ⟨some "k", some "s"⟩
        = .jsonError "Room and username are required" 400
    ∧ (jsFalsy (some "r") = false ∧ jsFalsy (some "u") = false) :=
  ⟨(token_route_validation_order ⟨some "", some "u"⟩ ⟨some "k", some "s"⟩).1
      (by decide),
   (token_route_validation_order ⟨some "r", some "u"⟩ ⟨none, none⟩).2.2
      (by decide)⟩

/-- A chat transcript entry (interface ChatMessage of the page component).
JS Date timestamps are modelled as naturals. -/
structure ChatMessage where
  id : String
  participant : String
  text : String
  timestamp : Nat
  isFinal : Bool
deriving DecidableEq, Repr

/-- JavaScript String.prototype.includes on the character sequences. -/
def jsIncludes (s pat : String) : Bool :=
  decide (pat.data <:+: s.data)

/-- The ChatMessage built inside handleTranscriptionStream: the participant
label is Agent when the speaker identity contains the substring agent and
You otherwise, and isFinal is always set to true. -/
def mkTranscriptionMessage (messageId speakerIdentity transcriptionText : String)
    (now : Nat) : ChatMessage :=
  { id := messageId
    participant := if jsIncludes speakerIdentity "agent" then "Agent" else "You"
    text := transcriptionText
    timestamp := now
    isFinal := true }

/-- JavaScript Array.prototype.slice with a negative start index -n: the
last n elements (the whole array when it is shorter than n). -/
def jsSliceLast (n : Nat) (l : List α) : List α :=
  l.drop (l.length - n)

/-- The state updater passed to setChatMessages: copy the previous list,
push the new message, keep the last 50. -/
def pushCapped (prev : List ChatMessage) (message : ChatMessage) :
    List ChatMessage :=
  jsSliceLast 50 (prev ++ [message])

/-- Effect of one invocation of handleTranscriptionStream on the
chatMessages list, given the text read from the stream, the speaker
identity, the generated message id and the current time. -/
def handleTranscriptionStream (prev : List ChatMessage)
    (messageId speakerIdentity transcriptionText : String) (now : Nat) :
    List ChatMessage :=
  pushCapped prev
    (mkTranscriptionMessage messageId speakerIdentity transcriptionText now)

/-- The extra CSS class string applied to a rendered message text: the
italic reduced-opacity style exactly when the message is not final. -/
def messageTextStyle (m : ChatMessage) : String :=
  if !m.isFinal then "italic opacity-75" else ""

/-- Local state of the VoiceChatRoom component. -/
structure VoiceChatState where
  isConnected : Bool
  chatMessages : List ChatMessage
  isAgentTyping : Bool
deriving DecidableEq, Repr

/-- The RoomEvent.Connected listener: setIsConnected(true). -/
def onConnected (s : VoiceChatState) : VoiceChatState :=
  { s with isConnected := true }

/-- The RoomEvent.Disconnected listener: setIsConnected(false) and nothing
else. -/
def onDisconnected (s : VoiceChatState) : VoiceChatState :=
  { s with isConnected := false }

/-- The disconnect function wired to the End Call button: after the
room.disconnect() call it clears the transcript and the typing flag. -/
def disconnect (s : VoiceChatState) : VoiceChatState :=
  { s with chatMessages := [], isAgentTyping := false }

/-- C2: each invocation of the transcription stream handler leaves at most
50 messages, the result is a suffix of the previous list with the new
message appended (so displayed entries are neither reordered nor modified),
and it consists of exactly the most recent messages in arrival order. -/
theorem transcript_capped_append_only (prev : List ChatMessage)
    (messageId speakerIdentity transcriptionText : String) (now : Nat) :
    (handleTranscriptionStream prev messageId speakerIdentity
        transcriptionText now).length ≤ 50
    ∧ (handleTranscriptionStream prev messageId speakerIdentity
        transcriptionText now) <:+
        (prev ++ [mkTranscriptionMessage messageId speakerIdentity
          transcriptionText now])
    ∧ handleTranscriptionStream prev messageId speakerIdentity
        transcriptionText now
      = (prev ++ [mkTranscriptionMessage messageId speakerIdentity
          transcriptionText now]).drop (prev.length + 1 - 50) := by
  refine ⟨?_, ?_, ?_⟩
  · simp only [handleTranscriptionStream, pushCapped, jsSliceLast,
      List.length_drop]
    omega
  · exact List.drop_suffix _ _
  · simp [handleTranscriptionStream, pushCapped, jsSliceLast]

/-- C3 counterexample: a platform-initiated Disconnected event does not
clear the transcript — after onDisconnected runs on a state with one
message, chatMessages is still non-empty. -/
theorem transcript_cleared_on_disconnect_cex :
    (onDisconnected
      { isConnected := true
        chatMessages := [mkTranscriptionMessage "m1" "user-1" "hello" 0]
        isAgentTyping := false }).chatMessages ≠ [] := by
  decide

/-- C3 amended: the transcript is cleared by the End Call control (the
disconnect function), while the Disconnected event listener only lowers
the isConnected flag and leaves chatMessages untouched. -/
theorem transcript_cleared_on_user_disconnect (s : VoiceChatState) :
    (disconnect s).chatMessages = []
    ∧ (disconnect s).isAgentTyping = false
    ∧ (onDisconnected s).chatMessages = s.chatMessages
    ∧ (onDisconnected s).isConnected = false := by
  simp [disconnect, onDisconnected]

/-- The chatMessages lists reachable by the component: initially empty,
updated only by invocations of the transcription stream handler (the End
Call control resets to the empty list, which is again the initial state). -/
inductive ReachableTranscript : List ChatMessage → Prop
  | nil : ReachableTranscript []
  | step (messageId speakerIdentity transcriptionText : String) (now : Nat)
      {msgs : List ChatMessage} : ReachableTranscript msgs →
      ReachableTranscript
        (handleTranscriptionStream msgs messageId speakerIdentity
          transcriptionText now)

/-- C9: every message in a reachable transcript has isFinal set to true,
so the italic reduced-opacity rendering style is never produced. -/
theorem transcript_messages_always_final (msgs : List ChatMessage)
    (h : ReachableTranscript msgs) :
    ∀ m ∈ msgs, m.isFinal = true ∧ messageTextStyle m = "" := by
  induction h with
  | nil => intro m hm; exact absurd hm (List.not_mem_nil m)
  | step messageId speakerIdentity transcriptionText now hr ih =>
    intro m hm
    have hsub : m ∈ _ ++ [mkTranscriptionMessage messageId speakerIdentity
        transcriptionText now] :=
      (List.drop_sublist _ _).subset hm
    rcases List.mem_append.mp hsub with hin | hnew
    · exact ih m hin
    · have hm' : m = mkTranscriptionMessage messageId speakerIdentity
          transcriptionText now := by
        simpa using hnew
      subst hm'
      exact ⟨rfl, rfl⟩

/-- Witness for transcript_messages_always_final on the transcript obtained
by one handler invocation from the empty list. -/
theorem transcript_messages_always_final_witness :
    (mkTranscriptionMessage "m1" "agent-7" "hi" 5).isFinal = true
    ∧ messageTextStyle (mkTranscriptionMessage "m1" "agent-7" "hi" 5) = "" :=
  transcript_messages_always_final
    (handleTranscriptionStream [] "m1" "agent-7" "hi" 5)
    (ReachableTranscript.step "m1" "agent-7" "hi" 5 ReachableTranscript.nil)
    (mkTranscriptionMessage "m1" "agent-7" "hi" 5) (by decide)

/-- C10: the participant label of an appended transcript entry is Agent
exactly when the speaker identity contains the substring agent, You
exactly otherwise, and never anything else. -/
theorem transcript_participant_label
    (messageId speakerIdentity transcriptionText : String) (now : Nat) :
    ((mkTranscriptionMessage messageId speakerIdentity transcriptionText
        now).participant = "Agent" ↔ jsIncludes speakerIdentity "agent" = true)
    ∧ ((mkTranscriptionMessage messageId speakerIdentity transcriptionText
        now).participant = "You" ↔ jsIncludes speakerIdentity "agent" = false)
    ∧ ((mkTranscriptionMessage messageId speakerIdentity transcriptionText
        now).participant = "Agent"
      ∨ (mkTranscriptionMessage messageId speakerIdentity transcriptionText
        now).participant = "You") := by
  cases h : jsIncludes speakerIdentity "agent" <;>
    simp [mkTranscriptionMessage, h]

/-- Witness for transcript_participant_label at two concrete identities. -/
theorem transcript_participant_label_witness :
    (mkTranscriptionMessage "m1" "my-agent-1" "t" 0).participant = "Agent"
    ∧ (mkTranscriptionMessage "m2" "user-3" "t" 0).participant = "You" :=
  ⟨(transcript_participant_label "m1" "my-agent-1" "t" 0).1.mpr (by decide),
   (transcript_participant_label "m2" "user-3" "t" 0).2.1.mpr (by decide)⟩

/-- The four RoomEvent kinds the component subscribes to. -/
inductive REvent where
  | Connected
  | Disconnected
  | TrackPublished
  | TrackUnpublished
deriving DecidableEq, Repr

/-- Observable registration state of the room object: the event-listener
list (event paired with the identity of the listener function object,
modelled as a natural number, since the emitter matches listeners by
reference) and the registered text-stream topics. -/
structure RoomHandlers where
  listeners : List (REvent × Nat)
  textHandlers : List String
deriving DecidableEq, Repr

/-- room.on(event, handler): appends the listener. -/
def roomOn (r : RoomHandlers) (e : REvent) (h : Nat) : RoomHandlers :=
  { r with listeners := r.listeners ++ [(e, h)] }

/-- room.off(event, handler): removes listeners whose event and function
reference both match the arguments. -/
def roomOff (r : RoomHandlers) (e : REvent) (h : Nat) : RoomHandlers :=
  { r with listeners :=
      r.listeners.filter (fun p => !(p.1 == e && p.2 == h)) }

/-- room.registerTextStreamHandler(topic, cb): the vendor SDK throws when a
handler for the topic is already registered, otherwise records it. -/
def registerTextStreamHandlerSdk (r : RoomHandlers) (topic : String) :
    Except String RoomHandlers :=
  if r.textHandlers.contains topic then
    .error "handler already set"
  else
    .ok { r with textHandlers := r.textHandlers ++ [topic] }

/-- room.unregisterTextStreamHandler(topic): removes the topic handler. -/
def unregisterTextStreamHandlerSdk (r : RoomHandlers) (topic : String) :
    Except String RoomHandlers :=
  .ok { r with textHandlers := r.textHandlers.filter (fun t => !(t == topic)) }

/-- The try/catch around registerTextStreamHandler in the mount effect:
on an SDK error the state is left unchanged and a console warning is
appended; no error propagates. -/
def tryRegister (sdk : Except String RoomHandlers) (r : RoomHandlers)
    (warns : List String) : RoomHandlers × List String :=
  match sdk with
  | .ok r2 => (r2, warns)
  | .error e =>
    (r, warns ++ ["Transcription handler already registered: " ++ e])

/-- The try/catch around unregisterTextStreamHandler in the cleanup. -/
def tryUnregister (sdk : Except String RoomHandlers) (r : RoomHandlers)
    (warns : List String) : RoomHandlers × List String :=
  match sdk with
  | .ok r2 => (r2, warns)
  | .error e =>
    (r, warns ++ ["Error unregistering transcription handler: " ++ e])

/-- The mount effect of the component as an exception computation,
parameterised by the outcome of the vendor registration call. Function
objects created during mount get identities 0 to 3: the Connected arrow,
the Disconnected arrow, handleTrackPublished and handleTrackUnpublished.
It always returns ok: the only fallible call is wrapped in try/catch. -/
def mountEffectE (sdkReg : Except String RoomHandlers) (r : RoomHandlers)
    (warns : List String) : Except String (RoomHandlers × List String) :=
  let p := tryRegister sdkReg r warns
  .ok (roomOn (roomOn (roomOn (roomOn p.1 .Connected 0) .Disconnected 1)
    .TrackPublished 2) .TrackUnpublished 3, p.2)

/-- The cleanup effect as an exception computation, parameterised by the
outcome of the vendor unregistration call. The two arrow functions passed
to room.off for Connected and Disconnected are created freshly inside the
cleanup, so they carry new identities 4 and 5, while the named
handleTrackPublished and handleTrackUnpublished references 2 and 3 are
reused. -/
def cleanupEffectE (sdkUnreg : Except String RoomHandlers) (r : RoomHandlers)
    (warns : List String) : Except String (RoomHandlers × List String) :=
  let p := tryUnregister sdkUnreg r warns
  .ok (roomOff (roomOff (roomOff (roomOff p.1 .Connected 4) .Disconnected 5)
    .TrackPublished 2) .TrackUnpublished 3, p.2)

/-- The mount effect run against the real SDK behaviour. -/
def mountEffect (r : RoomHandlers) : RoomHandlers :=
  let p := tryRegister (registerTextStreamHandlerSdk r "lk.transcription") r []
  roomOn (roomOn (roomOn (roomOn p.1 .Connected 0) .Disconnected 1)
    .TrackPublished 2) .TrackUnpublished 3

/-- The cleanup effect run against the real SDK behaviour. -/
def cleanupEffect (r : RoomHandlers) : RoomHandlers :=
  let p := tryUnregister (unregisterTextStreamHandlerSdk r "lk.transcription")
    r []
  roomOff (roomOff (roomOff (roomOff p.1 .Connected 4) .Disconnected 5)
    .TrackPublished 2) .TrackUnpublished 3

/-- A room with no listeners and no text-stream handlers. -/
def emptyRoom : RoomHandlers := { listeners := [], textHandlers := [] }

/-- C4 (code bug): running the cleanup after the mount on a fresh room
removes the text-stream handler and the track listeners, but the Connected
and Disconnected listeners registered on mount remain attached, because
room.off is called with freshly created arrow functions whose references
differ from the ones registered. -/
theorem cleanup_leaves_connection_listeners :
    (cleanupEffect (mountEffect emptyRoom)).listeners
      = [(REvent.Connected, 0), (REvent.Disconnected, 1)]
    ∧ (cleanupEffect (mountEffect emptyRoom)).textHandlers = []
    ∧ cleanupEffect (mountEffect emptyRoom) ≠ emptyRoom := by
  decide

/-- C7: neither the mount effect nor the cleanup effect can raise, for
every possible outcome of the vendor registration and unregistration
calls; a failing call leaves the room state unchanged and appends the
corresponding console warning instead. -/
theorem stream_handler_failures_caught (sdkReg sdkUnreg :
    Except String RoomHandlers) (r : RoomHandlers) (warns : List String) :
    (∃ p, mountEffectE sdkReg r warns = .ok p)
    ∧ (∃ p, cleanupEffectE sdkUnreg r warns = .ok p)
    ∧ (∀ e, sdkReg = .error e →
        mountEffectE sdkReg r warns
          = .ok (roomOn (roomOn (roomOn (roomOn r .Connected 0)
              .Disconnected 1) .TrackPublished 2) .TrackUnpublished 3,
            warns ++ ["Transcription handler already registered: " ++ e]))
    ∧ (∀ e, sdkUnreg = .error e →
        cleanupEffectE sdkUnreg r warns
          = .ok (roomOff (roomOff (roomOff (roomOff r .Connected 4)
              .Disconnected 5) .TrackPublished 2) .TrackUnpublished 3,
            warns ++ ["Error unregistering transcription handler: " ++ e])) := by
  refine ⟨⟨_, rfl⟩, ⟨_, rfl⟩, fun e he => ?_, fun e he => ?_⟩ <;>
    subst he <;> rfl

/-- Witness for stream_handler_failures_caught with both vendor calls
throwing. -/
theorem stream_handler_failures_caught_witness :
    mountEffectE (.error "dup") emptyRoom []
      = .ok (roomOn (roomOn (roomOn (roomOn emptyRoom .Connected 0)
          .Disconnected 1) .TrackPublished 2) .TrackUnpublished 3,
        [] ++ ["Transcription handler already registered: " ++ "dup"])
    ∧ cleanupEffectE (.error "gone") emptyRoom []
      = .ok (roomOff (roomOff (roomOff (roomOff emptyRoom .Connected 4)
          .Disconnected 5) .TrackPublished 2) .TrackUnpublished 3,
        [] ++ ["Error unregistering transcription handler: " ++ "gone"]) :=
  ⟨(stream_handler_failures_caught (.error "dup") (.error "gone") emptyRoom
      []).2.2.1 "dup" rfl,
   (stream_handler_failures_caught (.error "dup") (.error "gone") emptyRoom
      []).2.2.2 "gone" rfl⟩

/-- Result of the fetch call in joinRoom: either the promise rejects (a
thrown error) or a response with an ok flag and the parsed token field. -/
structure FetchResponse where
  ok : Bool
  token : String
deriving DecidableEq, Repr

/-- Local state of the Home component: the token gating the join screen,
the isJoining flag and the alerts shown to the user so far. -/
structure HomeState where
  token : String
  isJoining : Bool
  alerts : List String
deriving DecidableEq, Repr

/-- The joinRoom function: set isJoining, fetch a token; a non-ok response
throws, any thrown error is caught and surfaced as a blocking alert; on
success the token state is set; finally isJoining is cleared. -/
def joinRoom (s : HomeState) (fetchResult : Except String FetchResponse) :
    HomeState :=
  let s1 := { s with isJoining := true }
  let s2 :=
    match fetchResult with
    | .ok response =>
      if !response.ok then
        { s1 with alerts :=
            s1.alerts ++ ["Failed to join room. Please try again."] }
      else
        { s1 with token := response.token }
    | .error _ =>
      { s1 with alerts :=
          s1.alerts ++ ["Failed to join room. Please try again."] }
  { s2 with isJoining := false }

/-- A token fetch failed: the promise rejected or the response was not ok. -/
def fetchFailed : Except String FetchResponse → Bool
  | .error _ => true
  | .ok response => !response.ok

/-- The Home component renders the join screen exactly when the token
state is falsy. -/
def showsJoinScreen (s : HomeState) : Bool :=
  s.token == ""

/-- C6: every failed token fetch appends the blocking alert and leaves the
token state unchanged, so a previously shown join screen is still shown. -/
theorem token_fetch_failure_alerts (s : HomeState)
    (fetchResult : Except String FetchResponse)
    (h : fetchFailed fetchResult = true) :
    (joinRoom s fetchResult).alerts
        = s.alerts ++ ["Failed to join room. Please try again."]
    ∧ (joinRoom s fetchResult).token = s.token
    ∧ (showsJoinScreen s = true →
        showsJoinScreen (joinRoom s fetchResult) = true)
    ∧ (joinRoom s fetchResult).isJoining = false := by
  cases fetchResult with
  | error e => simp [joinRoom, showsJoinScreen]
  | ok response =>
    simp only [fetchFailed, Bool.not_eq_true'] at h
    simp [joinRoom, showsJoinScreen, h]

/-- Witness for token_fetch_failure_alerts: a 500 response (ok false)
leaves the initial state on the join screen with the alert shown. -/
theorem token_fetch_failure_alerts_witness :
    (joinRoom ⟨"", false, []⟩ (.ok ⟨false, ""⟩)).alerts
        = [] ++ ["Failed to join room. Please try again."]
    ∧ (joinRoom ⟨"", false, []⟩ (.ok ⟨false, ""⟩)).token = ""
    ∧ (showsJoinScreen ⟨"", false, []⟩ = true →
        showsJoinScreen (joinRoom ⟨"", false, []⟩ (.ok ⟨false, ""⟩)) = true)
    ∧ (joinRoom ⟨"", false, []⟩ (.ok ⟨false, ""⟩)).isJoining = false :=
  token_fetch_failure_alerts ⟨"", false, []⟩ (.ok ⟨false, ""⟩) (by decide)

end VoiceAgent
